import Mathlib

/-!
Verification of the session-capture and Markdown-report renderer of the
cody_api_basics repository (`utils/file_utils.py`), as a shallow embedding.

Python dictionaries handed to the renderers are modelled as structures whose
fields are `Option`-valued: `none` models an absent key, and each `.get(key,
default)` of the source becomes `Option.getD`.  Each `file.write(...)` of the
source becomes one element of a `List String` (the written document is the
concatenation).  `datetime.now()` values are passed in as string parameters.
The filesystem is modelled by `FsEnv`; a Python exception that escapes a
region is an `Except.error`.  JSON-serializable Python values are modelled by
`JVal`; `json.dumps(·, indent=2, ensure_ascii=False)` by `jsonDumps`, and
`json.loads` by `jsonParse` (a recursive-descent parser covering the
null/bool/integer/string/array/object fragment of JSON).
-/

/-- JSON-serializable Python value (model of what callers place in payload,
result and conversation fields). -/
inductive JVal where
  | null : JVal
  | bool : Bool → JVal
  | num : Int → JVal
  | str : String → JVal
  | arr : List JVal → JVal
  | obj : List (String × JVal) → JVal

/-- Spaces used by `json.dumps(indent=2)` for one indentation level. -/
def jspaces (n : Nat) : String :=
  String.mk (List.replicate n ' ')

/-- The escaping `json.dumps` applies inside a JSON string literal
(ensure_ascii=False: non-ASCII characters are kept literally). -/
def jescapeChars : List Char → List Char
  | [] => []
  | c :: cs =>
    (if c = '"' then ['\\', '"']
     else if c = '\\' then ['\\', '\\']
     else if c = '\n' then ['\\', 'n']
     else if c = '\t' then ['\\', 't']
     else if c = '\r' then ['\\', 'r']
     else [c]) ++ jescapeChars cs

/-- A JSON string literal as `json.dumps` writes it. -/
def jstr (s : String) : String :=
  "\"" ++ String.mk (jescapeChars s.data) ++ "\""

mutual

/-- Model of `json.dumps(v, indent=2, ensure_ascii=False)` at indentation
depth `ind`. -/
def dumpsAux : Nat → JVal → String
  | _, JVal.null => "null"
  | _, JVal.bool true => "true"
  | _, JVal.bool false => "false"
  | _, JVal.num n => toString n
  | _, JVal.str s => jstr s
  | _, JVal.arr [] => "[]"
  | ind, JVal.arr (x :: xs) =>
    "[\n" ++ dumpsItems (ind + 2) (x :: xs) ++ "\n" ++ jspaces ind ++ "]"
  | _, JVal.obj [] => "\x7b\x7d"
  | ind, JVal.obj (p :: ps) =>
    "\x7b\n" ++ dumpsFields (ind + 2) (p :: ps) ++ "\n" ++ jspaces ind ++ "\x7d"

/-- Array items, one per line, comma-separated. -/
def dumpsItems : Nat → List JVal → String
  | _, [] => ""
  | ind, [x] => jspaces ind ++ dumpsAux ind x
  | ind, x :: y :: xs =>
    jspaces ind ++ dumpsAux ind x ++ ",\n" ++ dumpsItems ind (y :: xs)

/-- Object fields, one per line, comma-separated. -/
def dumpsFields : Nat → List (String × JVal) → String
  | _, [] => ""
  | ind, [(k, v)] => jspaces ind ++ jstr k ++ ": " ++ dumpsAux ind v
  | ind, (k, v) :: q :: ps =>
    jspaces ind ++ jstr k ++ ": " ++ dumpsAux ind v ++ ",\n" ++ dumpsFields ind (q :: ps)

end

/-- Model of `json.dumps(v, indent=2, ensure_ascii=False)`. -/
def jsonDumps (v : JVal) : String :=
  dumpsAux 0 v

/-- Whitespace skipping of the JSON grammar. -/
def skipWs : List Char → List Char
  | [] => []
  | c :: cs => if c = ' ' || c = '\n' || c = '\t' || c = '\r' then skipWs cs else c :: cs

/-- Longest digit run at the front of the input. -/
def takeDigits : List Char → (List Char × List Char)
  | [] => ([], [])
  | c :: cs =>
    if c.isDigit then
      let p := takeDigits cs
      (c :: p.1, p.2)
    else ([], c :: cs)

/-- Numeric value of a digit run. -/
def digitsVal (ds : List Char) : Nat :=
  ds.foldl (fun a c => a * 10 + (c.toNat - 48)) 0

/-- Decoding of a character after a backslash inside a JSON string.  The
model covers the common single-character escapes; `\\uXXXX` is out of its
scope (such inputs simply fail to parse and take the raw-text fallback). -/
def jescDecode (c : Char) : Char :=
  if c = 'n' then '\n'
  else if c = 't' then '\t'
  else if c = 'r' then '\r'
  else if c = 'b' then Char.ofNat 8
  else if c = 'f' then Char.ofNat 12
  else c

/-- JSON string body: consumes up to and including the closing quote. -/
def parseStrAux : List Char → Option (List Char × List Char)
  | [] => none
  | '"' :: rest => some ([], rest)
  | '\\' :: c :: rest => (parseStrAux rest).map fun p => (jescDecode c :: p.1, p.2)
  | c :: rest => (parseStrAux rest).map fun p => (c :: p.1, p.2)

/-- After an integer literal, JSON may not continue with `.`, `e` or `E`
(those would make it a float, outside this model's fragment). -/
def numTailOk : List Char → Bool
  | [] => true
  | c :: _ => ¬(c = '.' || c = 'e' || c = 'E')

mutual

/-- Model of `json.loads` on the null/bool/integer/string/array/object
fragment: one value, returning the unconsumed remainder. -/
def parseVal (fuel : Nat) (cs : List Char) : Option (JVal × List Char) :=
  match fuel with
  | 0 => none
  | fuel + 1 =>
    match skipWs cs with
    | 'n' :: 'u' :: 'l' :: 'l' :: rest => some (JVal.null, rest)
    | 't' :: 'r' :: 'u' :: 'e' :: rest => some (JVal.bool true, rest)
    | 'f' :: 'a' :: 'l' :: 's' :: 'e' :: rest => some (JVal.bool false, rest)
    | '"' :: rest => (parseStrAux rest).map fun p => (JVal.str (String.mk p.1), p.2)
    | '[' :: rest => (parseArrItems fuel rest).map fun p => (JVal.arr p.1, p.2)
    | '\x7b' :: rest => (parseObjItems fuel rest).map fun p => (JVal.obj p.1, p.2)
    | '-' :: rest =>
      match takeDigits rest with
      | ([], _) => none
      | (d :: ds, rest') =>
        if numTailOk rest' then some (JVal.num (-(digitsVal (d :: ds) : Int)), rest')
        else none
    | c :: rest =>
      if c.isDigit then
        match takeDigits (c :: rest) with
        | ([], _) => none
        | (d :: ds, rest') =>
          if numTailOk rest' then some (JVal.num (digitsVal (d :: ds) : Int), rest')
          else none
      else none
    | [] => none

/-- Array items after the opening bracket. -/
def parseArrItems (fuel : Nat) (cs : List Char) : Option (List JVal × List Char) :=
  match fuel with
  | 0 => none
  | fuel + 1 =>
    match skipWs cs with
    | ']' :: rest => some ([], rest)
    | cs' =>
      match parseVal fuel cs' with
      | none => none
      | some (v, rest) =>
        match skipWs rest with
        | ',' :: rest' =>
          match parseArrItems fuel rest' with
          | some (vs, rest'') => some (v :: vs, rest'')
          | none => none
        | ']' :: rest' => some ([v], rest')
        | _ => none

/-- Object fields after the opening brace. -/
def parseObjItems (fuel : Nat) (cs : List Char) : Option (List (String × JVal) × List Char) :=
  match fuel with
  | 0 => none
  | fuel + 1 =>
    match skipWs cs with
    | '\x7d' :: rest => some ([], rest)
    | '"' :: rest =>
      match parseStrAux rest with
      | none => none
      | some (k, rest₁) =>
        match skipWs rest₁ with
        | ':' :: rest₂ =>
          match parseVal fuel rest₂ with
          | none => none
          | some (v, rest₃) =>
            match skipWs rest₃ with
            | ',' :: rest₄ =>
              match parseObjItems fuel rest₄ with
              | some (ps, rest₅) => some ((String.mk k, v) :: ps, rest₅)
              | none => none
            | '\x7d' :: rest₄ => some ([(String.mk k, v)], rest₄)
            | _ => none
        | _ => none
    | _ => none

end

/-- Model of `json.loads s`: a full-input parse of the JSON fragment above;
`none` models a raised `json.JSONDecodeError`. -/
def jsonParse (s : String) : Option JVal :=
  match parseVal (s.length * 4 + 16) s.data with
  | some (v, rest) => if skipWs rest = [] then some v else none
  | none => none

/-- Whether `p` is a prefix of `l` (character lists). -/
def beginsWithCL : List Char → List Char → Bool
  | [], _ => true
  | _ :: _, [] => false
  | a :: ps, b :: ls => a = b && beginsWithCL ps ls

/-- Whether `p` occurs contiguously inside `l`: the semantics of Python's
`p in l` on strings. -/
def hasSubCL : List Char → List Char → Bool
  | p, [] => p.isEmpty
  | p, c :: rest => beginsWithCL p (c :: rest) || hasSubCL p rest

/-- Python's substring test `pat in s`. -/
def strHasSub (s pat : String) : Bool :=
  hasSubCL pat.data s.data

/-- The redaction test of every header loop in `file_utils.py`:
`'token' in header.lower() or 'authorization' in header.lower()`. -/
def isSensitiveHeader (header : String) : Bool :=
  strHasSub header.toLower "token" || strHasSub header.toLower "authorization"

/-- The header loop shared verbatim by the chat, tool-calling, context-search
and manual-context renderers:

    for header, value in headers.items():
        if 'token' in header.lower() or 'authorization' in header.lower():
            value = '[REDACTED]'
        file.write(f"- `{header}: {value}`\n")
-/
def writeHeaderLines : List (String × String) → List String
  | [] => []
  | (header, value) :: rest =>
    let value := if isSensitiveHeader header then "[REDACTED]" else value
    ("- `" ++ header ++ ": " ++ value ++ "`\n") :: writeHeaderLines rest

/-- One rendered header line as the spec describes it: the value is replaced
with the literal `[REDACTED]` exactly when the lower-cased header name
contains the substring `token` or `authorization`. -/
def specHeaderLine (p : String × String) : String :=
  "- `" ++ p.1 ++ ": " ++ (if isSensitiveHeader p.1 then "[REDACTED]" else p.2) ++ "`\n"

/-- Python's `s.replace('::', '_')`: replaces every non-overlapping
occurrence, left to right. -/
def replaceColons : List Char → List Char
  | [] => []
  | [c] => [c]
  | c :: d :: rest =>
    if c = ':' ∧ d = ':' then '_' :: replaceColons rest
    else c :: replaceColons (d :: rest)

/-- Python's `s.replace('/', '_')`. -/
def replaceSlash (l : List Char) : List Char :=
  l.map fun c => if c = '/' then '_' else c

/-- The filename sanitization
`session_metadata.get('model_id', 'unknown').replace('::', '_').replace('/', '_')`. -/
def sanitizeModelId (s : String) : String :=
  String.mk (replaceSlash (replaceColons s.data))

/-- `"N/A"`-defaulted rendering of an optional integer field, as an f-string
interpolation of `d.get(key, 'N/A')` displays it. -/
def optIntStr (o : Option Int) : String :=
  match o with
  | some n => toString n
  | none => "N/A"

/-- `"N/A"`-defaulted rendering of an optional natural-number field. -/
def optNatStr (o : Option Nat) : String :=
  match o with
  | some n => toString n
  | none => "N/A"

/-- Python list indexing `l[i]`, including negative indices counting from the
end; an out-of-range index models a raised `IndexError`. -/
def pyIndexE (l : List α) (i : Int) : Except String α :=
  if i < 0 then
    if (-i).toNat ≤ l.length then
      match l.get? (l.length - (-i).toNat) with
      | some a => Except.ok a
      | none => Except.error "IndexError"
    else Except.error "IndexError"
  else
    match l.get? i.toNat with
    | some a => Except.ok a
    | none => Except.error "IndexError"

/-- The `usage` sub-dictionary of an API-call record. -/
structure Usage where
  prompt_tokens : Option Int
  completion_tokens : Option Int
  total_tokens : Option Int

/-- The `error` sub-dictionary of an API-call record. -/
structure ErrRec where
  type : Option String
  message : Option String
  status_code : Option Int
  response_body : Option String

/-- One API-call detail record, as the caller scripts build it.  Response
latencies are integral milliseconds (`int((time.time()-start)*1000)` in every
caller). -/
structure ApiCall where
  url : Option String
  status_code : Option Int
  response_time : Option Nat
  headers : Option (List (String × String))
  request_payload : Option JVal
  response_data : Option JVal
  usage : Option Usage
  error : Option ErrRec
  context_size : Option Int
  context_description : Option String

/-- One conversation message. -/
structure Msg where
  role : Option String
  content : Option String

/-- `message.get('role', 'unknown')`. -/
def msgRole (m : Msg) : String :=
  m.role.getD "unknown"

/-- `message.get('content', '')`. -/
def msgContent (m : Msg) : String :=
  m.content.getD ""

/-- Session metadata consumed by `save_chat_session_to_markdown`. -/
structure ChatMeta where
  model_id : Option String
  duration : Option String
  temperature : Option String
  max_tokens : Option Int
  api_calls_count : Option Int

/-- The token-usage block (`**Token Usage:**` and three bullet lines). -/
def usageBlock (u : Usage) : List String :=
  ["**Token Usage:**\n",
   "- Prompt Tokens: `" ++ optIntStr u.prompt_tokens ++ "`\n",
   "- Completion Tokens: `" ++ optIntStr u.completion_tokens ++ "`\n",
   "- Total Tokens: `" ++ optIntStr u.total_tokens ++ "`\n\n"]

/-- The two writes opening a numbered user-message block. -/
def userMsgWrites (n : Nat) (m : Msg) : List String :=
  ["### " ++ toString n ++ ". 👤 User Message\n\n",
   msgContent m ++ "\n\n"]

/-- The API-request detail block written after the `n`-th user message in
`save_chat_session_to_markdown`. -/
def userApiBlock (n : Nat) (api : ApiCall) : List String :=
  ["#### 🔄 API Request #" ++ toString n ++ "\n\n",
   "- **Endpoint:** `" ++ api.url.getD "N/A" ++ "`\n",
   "- **Method:** `POST`\n",
   "- **Status Code:** `" ++ optIntStr api.status_code ++ "`\n",
   "- **Response Time:** `" ++ optNatStr api.response_time ++ "ms`\n\n",
   "**Headers:**\n"]
  ++ writeHeaderLines (api.headers.getD [])
  ++ ["\n",
      "**Complete Request Payload:**\n\n",
      "```json\n",
      jsonDumps (api.request_payload.getD (JVal.obj [])),
      "\n```\n\n"]

/-- The two writes opening an assistant-response block. -/
def assistantHeadWrites (m : Msg) : List String :=
  ["#### 🤖 Assistant Response\n\n",
   msgContent m ++ "\n\n"]

/-- The token-usage part of an assistant block: `usage = api_call.get('usage',
{})` followed by `if usage:`. -/
def assistantUsagePart (api : ApiCall) : List String :=
  match api.usage with
  | some u => usageBlock u
  | none => []

/-- The `## Conversation Flow` loop of `save_chat_session_to_markdown`:
walks the conversation carrying `user_message_count`, pairing each user turn
with the positionally matching record of `api_calls_history` (bounds-checked
with `api_call_index < len(api_calls_history)` and then indexed with Python
semantics, so a negative index counts from the end); an `IndexError` escapes
as `Except.error`. -/
def chatFlowAux : Nat → List Msg → List ApiCall → Except String (List String)
  | _, [], _ => Except.ok []
  | count, m :: rest, hist =>
    if msgRole m = "user" then
      let c := count + 1
      let blockE : Except String (List String) :=
        if ((c : Int) - 1) < (hist.length : Int) then
          match pyIndexE hist ((c : Int) - 1) with
          | Except.ok api => Except.ok (userApiBlock c api)
          | Except.error e => Except.error e
        else Except.ok []
      match blockE with
      | Except.error e => Except.error e
      | Except.ok block =>
        match chatFlowAux c rest hist with
        | Except.error e => Except.error e
        | Except.ok tail => Except.ok (userMsgWrites c m ++ block ++ tail)
    else if msgRole m = "assistant" then
      let blockE : Except String (List String) :=
        if ((count : Int) - 1) < (hist.length : Int) then
          match pyIndexE hist ((count : Int) - 1) with
          | Except.ok api => Except.ok (assistantUsagePart api)
          | Except.error e => Except.error e
        else Except.ok []
      match blockE with
      | Except.error e => Except.error e
      | Except.ok block =>
        match chatFlowAux count rest hist with
        | Except.error e => Except.error e
        | Except.ok tail =>
          Except.ok (assistantHeadWrites m ++ block ++ ["---\n\n"] ++ tail)
    else chatFlowAux count rest hist

/-- The conversation-flow section as the spec describes it: the `c`-th user
turn is followed by the API-detail block of the `c`-th api-call record when
that record exists, and by nothing when `api_calls_history` is exhausted
(trailing turns omit the subsection); an assistant turn draws its token-usage
figures from the same positionally indexed record if present.  Total: no
error is ever raised. -/
def chatFlowSpecAux : Nat → List Msg → List ApiCall → List String
  | _, [], _ => []
  | count, m :: rest, hist =>
    if msgRole m = "user" then
      userMsgWrites (count + 1) m
      ++ (match hist.get? count with
          | some api => userApiBlock (count + 1) api
          | none => [])
      ++ chatFlowSpecAux (count + 1) rest hist
    else if msgRole m = "assistant" then
      assistantHeadWrites m
      ++ (match hist.get? (count - 1) with
          | some api => assistantUsagePart api
          | none => [])
      ++ ["---\n\n"]
      ++ chatFlowSpecAux count rest hist
    else chatFlowSpecAux count rest hist

/-- Number of user messages in a conversation. -/
def userCount (msgs : List Msg) : Nat :=
  (msgs.filter fun m => msgRole m = "user").length

/-- Whether the conversation reaches a user message (or its end) before any
assistant message: under this ordering the chat renderer's api-call index is
never negative. -/
def safeOrder : List Msg → Bool
  | [] => true
  | m :: rest =>
    if msgRole m = "assistant" then false
    else if msgRole m = "user" then true
    else safeOrder rest

/-- Python truthiness of a JSON-like value (`if x:`). -/
def jvalTruthy : JVal → Bool
  | JVal.null => false
  | JVal.bool b => b
  | JVal.num n => n ≠ 0
  | JVal.str s => s ≠ ""
  | JVal.arr [] => false
  | JVal.arr (_ :: _) => true
  | JVal.obj [] => false
  | JVal.obj (_ :: _) => true

/-- One entry of the `available_tools` metadata list. -/
structure ToolInfo where
  name : Option String
  description : Option String

/-- One tool-call record inside a `tool_execution` step. -/
structure ToolCallRec where
  function_name : Option String
  call_id : Option String
  function_args : Option JVal
  function_result : Option JVal

/-- One step of a tool-calling session. -/
structure ToolStep where
  step_number : Option Int
  step_type : Option String
  user_query : Option String
  api_details : Option ApiCall
  tool_calls : Option (List ToolCallRec)
  ai_response : Option String

/-- Session metadata consumed by `save_tool_calling_session_to_markdown`. -/
structure ToolMeta where
  model_id : Option String
  duration : Option String
  temperature : Option String
  max_tokens : Option Int
  total_api_calls : Option Int
  total_tool_calls : Option Int
  user_query : Option String
  available_tools : List ToolInfo
  complete_conversation : List JVal

/-- The body written between the ```` ```json ```` fences for a function
result:

    try:
        if isinstance(result, str):
            result_json = json.loads(result)
            file.write(json.dumps(result_json, indent=2, ensure_ascii=False))
        else:
            file.write(json.dumps(result, indent=2, ensure_ascii=False))
    except (json.JSONDecodeError, TypeError):
        file.write(str(result))

A string result is parsed and pretty-printed; a parse failure falls back to
the raw string (`str` of a `str` is itself).  The model's values are all
JSON-serializable, so the `TypeError` arm of the non-string branch is
unreachable here. -/
def functionResultBody (result : JVal) : String :=
  match result with
  | JVal.str s =>
    match jsonParse s with
    | some j => jsonDumps j
    | none => s
  | v => jsonDumps v

/-- The writes for the `i`-th tool call (1-based) of a `tool_execution`
step. -/
def toolCallWrites (i : Nat) (tc : ToolCallRec) : List String :=
  ["#### Tool Call #" ++ toString i ++ ": " ++ tc.function_name.getD "Unknown" ++ "\n\n",
   "- **Function:** `" ++ tc.function_name.getD "N/A" ++ "`\n",
   "- **Call ID:** `" ++ tc.call_id.getD "N/A" ++ "`\n\n",
   "**Function Arguments:**\n\n",
   "```json\n",
   jsonDumps (tc.function_args.getD (JVal.obj [])),
   "\n```\n\n",
   "**Function Result:**\n\n",
   "```json\n",
   functionResultBody (tc.function_result.getD (JVal.str "")),
   "\n```\n\n"]

/-- The API-call detail block of an `initial_request` step. -/
def toolInitialApiWrites (api : ApiCall) : List String :=
  ["#### 🔄 API Call Details\n\n",
   "- **Endpoint:** `" ++ api.url.getD "N/A" ++ "`\n",
   "- **Method:** `POST`\n",
   "- **Status Code:** `" ++ optIntStr api.status_code ++ "`\n",
   "- **Response Time:** `" ++ optNatStr api.response_time ++ "ms`\n\n",
   "**Headers:**\n"]
  ++ writeHeaderLines (api.headers.getD [])
  ++ ["\n",
      "**Complete Request Payload:**\n\n",
      "```json\n",
      jsonDumps (api.request_payload.getD (JVal.obj [])),
      "\n```\n\n",
      "**Complete Response Payload:**\n\n",
      "```json\n",
      jsonDumps (api.response_data.getD (JVal.obj [])),
      "\n```\n\n"]

/-- The API-call detail block of a `final_response` step. -/
def toolFinalApiWrites (api : ApiCall) : List String :=
  ["#### 🔄 API Call Details\n\n",
   "- **Endpoint:** `" ++ api.url.getD "N/A" ++ "`\n",
   "- **Method:** `POST`\n",
   "- **Status Code:** `" ++ optIntStr api.status_code ++ "`\n",
   "- **Response Time:** `" ++ optNatStr api.response_time ++ "ms`\n\n"]
  ++ (match api.usage with
      | some u => usageBlock u
      | none => [])
  ++ ["**Complete Response Payload:**\n\n",
      "```json\n",
      jsonDumps (api.response_data.getD (JVal.obj [])),
      "\n```\n\n"]

/-- The writes for one step of the tool-calling flow.  The `if/elif` chain
dispatches on `step.get('step_type', 'unknown')`; a step of any other kind
adds no step-specific content, but the separator `---` at the end of the
loop body is written for every step. -/
def toolStepWrites (step : ToolStep) : List String :=
  (if step.step_type.getD "unknown" = "initial_request" then
    ["### Step " ++ optIntStr step.step_number ++ ": 📤 Initial AI Request\n\n",
     "**User Query:** " ++ step.user_query.getD "N/A" ++ "\n\n"]
    ++ (match step.api_details with
        | some api => toolInitialApiWrites api
        | none => [])
  else if step.step_type.getD "unknown" = "tool_execution" then
    ["### Step " ++ optIntStr step.step_number ++ ": 🔧 Tool Execution\n\n"]
    ++ ((step.tool_calls.getD []).enum.map fun p => toolCallWrites (p.1 + 1) p.2).flatten
  else if step.step_type.getD "unknown" = "final_response" then
    ["### Step " ++ optIntStr step.step_number ++ ": 🎯 Final AI Response\n\n"]
    ++ (match step.api_details with
        | some api => toolFinalApiWrites api
        | none => [])
    ++ (let r := step.ai_response.getD ""
        if r ≠ "" then ["#### 🤖 Final AI Response Content\n\n", r ++ "\n\n"] else [])
  else [])
  ++ ["---\n\n"]

/-- The full document written by `save_tool_calling_session_to_markdown`. -/
def toolDocWrites (genTime script : String) (steps : List ToolStep) (meta : ToolMeta) :
    List String :=
  ["# Tool Calling Session: " ++ meta.model_id.getD "Unknown Model" ++ "\n\n",
   "**Generated:** " ++ genTime ++ "\n\n",
   "**Script:** " ++ script ++ "\n\n",
   "**Session Duration:** " ++ meta.duration.getD "N/A" ++ "\n\n",
   "---\n\n",
   "## Session Overview\n\n",
   "- **Model ID:** `" ++ meta.model_id.getD "N/A" ++ "`\n",
   "- **Temperature:** `" ++ meta.temperature.getD "N/A" ++ "`\n",
   "- **Max Tokens:** `" ++ optIntStr meta.max_tokens ++ "`\n",
   "- **Total API Calls:** `" ++ optIntStr meta.total_api_calls ++ "`\n",
   "- **Total Tool Calls:** `" ++ optIntStr meta.total_tool_calls ++ "`\n",
   "- **User Query:** `" ++ meta.user_query.getD "N/A" ++ "`\n\n"]
  ++ (match meta.available_tools with
      | [] => []
      | ts =>
        ["## Available Tools\n\n"]
        ++ ts.map (fun t =>
            "- **" ++ t.name.getD "Unknown" ++ ":** " ++ t.description.getD "No description" ++ "\n")
        ++ ["\n"])
  ++ ["## Tool Calling Flow\n\n"]
  ++ (steps.map toolStepWrites).flatten
  ++ (match meta.complete_conversation with
      | [] => []
      | cs =>
        ["## Complete Conversation Context\n\n",
         "This shows the full conversation that was built up during the tool calling process:\n\n",
         "```json\n",
         jsonDumps (JVal.arr cs),
         "\n```\n\n"])
  ++ ["## Continue With This Model\n\n",
      "To use this model for more tool calling:\n\n",
      "```bash\n",
      "python 03-tools.py " ++ meta.model_id.getD "MODEL_ID" ++ "\n",
      "```\n"]

/-- The `search_params` sub-dictionary of a search record.  `file_patterns`
holds the f-string rendering of whatever value the caller stored (a Python
list renders via `str`); the `.get` default is the literal string `'None'`. -/
structure SearchParams where
  code_results : Option Int
  text_results : Option Int
  file_patterns : Option String
  version : Option String

/-- A repository reference inside a result blob. -/
structure RepoRec where
  name : Option String

/-- The `blob` sub-dictionary of a search-result chunk. -/
structure BlobRec where
  repository : Option RepoRec
  path : Option String

/-- One search-result chunk. -/
structure ChunkRec where
  blob : Option BlobRec
  startLine : Option Int
  endLine : Option Int
  chunkContent : Option String

/-- One search record of a context-search session. -/
structure SearchRec where
  query : Option String
  results : Option (List ChunkRec)
  api_details : Option ApiCall
  search_params : Option SearchParams

/-- Session metadata consumed by `save_context_search_session_to_markdown`.
The boolean fields model the truthiness checks on
`session_metadata.get('includes_conversation')` and
`session_metadata.get('include_raw_data', False)`. -/
structure ContextMeta where
  mode : Option String
  duration : Option String
  default_repos : List RepoRec
  endpoint : Option String
  includes_conversation : Bool
  conversation_history : List Msg
  include_raw_data : Bool

/-- `search.get('api_details', {}).get('response_time', 0)`. -/
def searchRespTime (s : SearchRec) : Nat :=
  match s.api_details with
  | some a => a.response_time.getD 0
  | none => 0

/-- `sum(len(search.get('results', [])) for search in search_history)`. -/
def contextTotalResults (hist : List SearchRec) : Nat :=
  (hist.map fun s => (s.results.getD []).length).sum

/-- `sum(search.get('api_details', {}).get('response_time', 0) for search in
search_history)`. -/
def contextTotalTime (hist : List SearchRec) : Nat :=
  (hist.map searchRespTime).sum

/-- Python's `min(iterable, default=0)`. -/
def natMinD : List Nat → Nat
  | [] => 0
  | x :: xs => xs.foldl Nat.min x

/-- Python's `max(iterable, default=0)`. -/
def natMaxD : List Nat → Nat
  | [] => 0
  | x :: xs => xs.foldl Nat.max x

/-- The rendering of `f"{total/n:.1f}"`: one decimal digit, rounding to
nearest with ties to even, as Python's fixed-point formatting does (the
inputs here are integral millisecond counts). -/
def fmt1 (total n : Nat) : String :=
  if n = 0 then "0.0"
  else
    let t := total * 10
    let d := t / n
    let r := t % n
    let q := if 2 * r < n then d else if 2 * r > n then d + 1
             else if d % 2 = 0 then d else d + 1
    toString (q / 10) ++ "." ++ toString (q % 10)

/-- The `## Performance Summary` section of
`save_context_search_session_to_markdown`: the whole section is guarded by
`if search_history:`, so an empty history writes nothing at all. -/
def contextPerfSection (hist : List SearchRec) : List String :=
  match hist with
  | [] => []
  | _ :: _ =>
    ["## Performance Summary\n\n",
     "- **Total Results Found:** `" ++ toString (contextTotalResults hist) ++ "`\n",
     "- **Total API Response Time:** `" ++ toString (contextTotalTime hist) ++ "ms`\n",
     "- **Average Response Time:** `" ++ fmt1 (contextTotalTime hist) hist.length ++ "ms`\n",
     "- **Fastest Query:** `" ++ toString (natMinD (hist.map searchRespTime)) ++ "ms`\n",
     "- **Slowest Query:** `" ++ toString (natMaxD (hist.map searchRespTime)) ++ "ms`\n\n"]

/-- `result.get('blob', {}).get('repository', {}).get('name', 'Unknown')`. -/
def chunkRepoName (c : ChunkRec) : String :=
  match c.blob with
  | some b =>
    match b.repository with
    | some r => r.name.getD "Unknown"
    | none => "Unknown"
  | none => "Unknown"

/-- `result.get('blob', {}).get('path', 'Unknown')`. -/
def chunkPath (c : ChunkRec) : String :=
  match c.blob with
  | some b => b.path.getD "Unknown"
  | none => "Unknown"

/-- The rendering of `f"{line_num:4d}"`: decimal, right-aligned to width 4
with spaces. -/
def lineNumPad (n : Int) : String :=
  let s := toString n
  if s.length < 4 then String.mk (List.replicate (4 - s.length) ' ') ++ s else s

/-- The numbered code lines of one chunk: `content.split('\n')` with a
synthetic line number starting at the chunk's recorded start line. -/
def chunkLines (startLine : Int) (content : String) : List String :=
  (content.splitOn "\n").enum.map fun p =>
    lineNumPad (startLine + (p.1 : Int)) ++ ": " ++ p.2 ++ "\n"

/-- The writes for the `j`-th result chunk (1-based) of one search block. -/
def resultWrites (j : Nat) (c : ChunkRec) : List String :=
  ["**Result " ++ toString j ++ ":**\n\n",
   "- **Repository:** `" ++ chunkRepoName c ++ "`\n",
   "- **File:** `" ++ chunkPath c ++ "`\n",
   "- **Lines:** `" ++ toString (c.startLine.getD 0) ++ "-" ++ toString (c.endLine.getD 0) ++ "`\n\n"]
  ++ (let content := c.chunkContent.getD ""
      if content ≠ "" then
        ["**Code:**\n\n", "```\n"] ++ chunkLines (c.startLine.getD 0) content ++ ["```\n\n"]
      else [])
  ++ ["---\n\n"]

/-- Empty search-parameter dictionary (`search.get('search_params', {})`). -/
def emptySearchParams : SearchParams :=
  SearchParams.mk none none none none

/-- Empty API-call dictionary (`search.get('api_details', {})`). -/
def emptyApiCall : ApiCall :=
  ApiCall.mk none none none none none none none none none none

/-- The writes for the `i`-th search block (1-based) of the search history
section. -/
def searchBlockWrites (i : Nat) (search : SearchRec) : List String :=
  let query := search.query.getD "Unknown"
  let results := search.results.getD []
  let apiD := search.api_details.getD emptyApiCall
  let params := search.search_params.getD emptySearchParams
  ["### " ++ toString i ++ ". Search: \"" ++ query ++ "\"\n\n",
   "#### 🔍 Search Parameters\n\n",
   "- **Query:** `" ++ query ++ "`\n",
   "- **Code Results:** `" ++ optIntStr params.code_results ++ "`\n",
   "- **Text Results:** `" ++ optIntStr params.text_results ++ "`\n",
   "- **File Patterns:** `" ++ params.file_patterns.getD "None" ++ "`\n",
   "- **Version:** `" ++ params.version.getD "N/A" ++ "`\n\n",
   "#### 🔄 API Call Details\n\n",
   "- **Status Code:** `" ++ optIntStr apiD.status_code ++ "`\n",
   "- **Response Time:** `" ++ optNatStr apiD.response_time ++ "ms`\n",
   "- **Results Found:** `" ++ toString results.length ++ "`\n\n"]
  ++ (match apiD.headers with
      | some (h :: hs) => ["**Headers:**\n"] ++ writeHeaderLines (h :: hs) ++ ["\n"]
      | _ => [])
  ++ (if (apiD.request_payload.map jvalTruthy).getD false then
        ["**Complete Request Payload:**\n\n",
         "```json\n",
         jsonDumps (apiD.request_payload.getD (JVal.obj [])),
         "\n```\n\n"]
      else [])
  ++ (match results with
      | [] => ["#### 📄 Search Results\n\n", "*No results found for this query.*\n\n"]
      | rs =>
        ["#### 📄 Search Results (" ++ toString rs.length ++ " found)\n\n"]
        ++ (rs.enum.map fun p => resultWrites (p.1 + 1) p.2).flatten)
  ++ [String.mk (List.replicate 70 '=') ++ "\n\n"]

/-- One message of the appended conversation transcript (unknown roles write
nothing). -/
def convMsgWrites (i : Nat) (m : Msg) : List String :=
  if msgRole m = "system" then
    ["### " ++ toString i ++ ". 🔧 System Context\n\n", msgContent m ++ "\n\n"]
  else if msgRole m = "user" then
    ["### " ++ toString i ++ ". 👤 User Question\n\n", msgContent m ++ "\n\n"]
  else if msgRole m = "assistant" then
    ["### " ++ toString i ++ ". 🤖 Assistant Response\n\n", msgContent m ++ "\n\n"]
  else []

/-- The `## Conversation History` section, present only when the metadata
flags a conversational session and carries a non-empty history. -/
def contextConvSection (meta : ContextMeta) : List String :=
  if meta.includes_conversation && !meta.conversation_history.isEmpty then
    ["## Conversation History\n\n",
     "This was a conversational session with " ++ toString meta.conversation_history.length
       ++ " messages.\n\n"]
    ++ (meta.conversation_history.enum.map fun p => convMsgWrites (p.1 + 1) p.2).flatten
    ++ ["---\n\n"]
  else []

/-- Optional field of a JSON object encoding. -/
def optField (k : String) (o : Option JVal) : List (String × JVal) :=
  match o with
  | some v => [(k, v)]
  | none => []

/-- JSON encoding of a usage record (for the raw-data dump). -/
def usageJ (u : Usage) : JVal :=
  JVal.obj (optField "prompt_tokens" (u.prompt_tokens.map JVal.num)
    ++ optField "completion_tokens" (u.completion_tokens.map JVal.num)
    ++ optField "total_tokens" (u.total_tokens.map JVal.num))

/-- JSON encoding of an API-call record (for the raw-data dump). -/
def apiCallJ (a : ApiCall) : JVal :=
  JVal.obj (optField "url" (a.url.map JVal.str)
    ++ optField "status_code" (a.status_code.map JVal.num)
    ++ optField "response_time" (a.response_time.map fun n => JVal.num n)
    ++ optField "headers" (a.headers.map fun hs => JVal.obj (hs.map fun p => (p.1, JVal.str p.2)))
    ++ optField "request_payload" a.request_payload
    ++ optField "response_data" a.response_data
    ++ optField "usage" (a.usage.map usageJ))

/-- JSON encoding of a result chunk (for the raw-data dump). -/
def chunkJ (c : ChunkRec) : JVal :=
  JVal.obj (optField "blob" (c.blob.map fun b =>
      JVal.obj (optField "repository" (b.repository.map fun r =>
          JVal.obj (optField "name" (r.name.map JVal.str)))
        ++ optField "path" (b.path.map JVal.str)))
    ++ optField "startLine" (c.startLine.map JVal.num)
    ++ optField "endLine" (c.endLine.map JVal.num)
    ++ optField "chunkContent" (c.chunkContent.map JVal.str))

/-- JSON encoding of search parameters (for the raw-data dump). -/
def searchParamsJ (p : SearchParams) : JVal :=
  JVal.obj (optField "code_results" (p.code_results.map JVal.num)
    ++ optField "text_results" (p.text_results.map JVal.num)
    ++ optField "file_patterns" (p.file_patterns.map JVal.str)
    ++ optField "version" (p.version.map JVal.str))

/-- JSON encoding of one search record (for the raw-data dump). -/
def searchRecJ (s : SearchRec) : JVal :=
  JVal.obj (optField "query" (s.query.map JVal.str)
    ++ optField "results" (s.results.map fun rs => JVal.arr (rs.map chunkJ))
    ++ optField "api_details" (s.api_details.map apiCallJ)
    ++ optField "search_params" (s.search_params.map searchParamsJ))

/-- The trailing raw-data section, present only when the history is non-empty
and the metadata asks for it. -/
def contextRawSection (hist : List SearchRec) (meta : ContextMeta) : List String :=
  if !hist.isEmpty && meta.include_raw_data then
    ["## Raw API Response Data\n\n",
     "```json\n",
     jsonDumps (JVal.arr (hist.map searchRecJ)),
     "\n```\n"]
  else []

/-- The full document written by `save_context_search_session_to_markdown`. -/
def contextDocWrites (genTime script : String) (hist : List SearchRec) (meta : ContextMeta) :
    List String :=
  ["# Context Search Session: " ++ meta.mode.getD "Unknown Mode" ++ "\n\n",
   "**Generated:** " ++ genTime ++ "\n\n",
   "**Script:** " ++ script ++ "\n\n",
   "**Session Duration:** " ++ meta.duration.getD "N/A" ++ "\n\n",
   "---\n\n",
   "## Session Settings\n\n",
   "- **Mode:** `" ++ meta.mode.getD "N/A" ++ "`\n",
   "- **Total Searches:** `" ++ toString hist.length ++ "`\n",
   "- **Default Repositories:**\n"]
  ++ meta.default_repos.map (fun r => "  - `" ++ r.name.getD "Unknown" ++ "`\n")
  ++ ["- **API Endpoint:** `" ++ meta.endpoint.getD "N/A" ++ "`\n\n"]
  ++ contextPerfSection hist
  ++ ["## Search History & Results\n\n"]
  ++ (hist.enum.map fun p => searchBlockWrites (p.1 + 1) p.2).flatten
  ++ contextConvSection meta
  ++ ["## Continue Searching\n\n",
      "To continue searching:\n\n",
      "```bash\n",
      "python 04-context.py\n",
      "```\n\n"]
  ++ contextRawSection hist meta

/-- One context-switch event of an interactive manual-context session. -/
structure SwitchRec where
  action : Option String
  timestamp : Option String
  file_path : Option String
  context_size : Option Int
  description : Option String

/-- The `context_metadata` sub-dictionary of the manual-context metadata. -/
structure CtxMetaRec where
  context_file : Option String
  context_size : Option Int

/-- One task (refactoring or custom mode) or interaction (interactive mode)
of a manual-context session; Python hands the renderer plain dictionaries, so
one record type carries the fields of both shapes. -/
structure ManualRec where
  task_number : Option Int
  task_name : Option String
  completed : Option Bool
  prompt : Option String
  response : Option String
  code_content : Option String
  timestamp : Option String
  context_description : Option String
  context_size : Option Int
  success : Option Bool
  user_question : Option String
  assistant_response : Option String

/-- Session metadata consumed by `save_manual_context_session_to_markdown`. -/
structure ManualMeta where
  model_id : Option String
  mode : Option String
  duration : Option String
  api_calls_count : Option Int
  total_tasks : Option Int
  completed_tasks : Option Int
  context_metadata : Option CtxMetaRec
  total_interactions : Option Int
  total_context_switches : Option Int
  custom_type : Option String
  context_switches : Option (List SwitchRec)

/-- The record with no keys (`.get(..., {})` on a missing sub-dictionary). -/
def emptyCtxMetaRec : CtxMetaRec :=
  CtxMetaRec.mk none none

/-- Model of `_write_api_call_details(file, api_call, call_number)`. -/
def apiCallDetailsWrites (api : ApiCall) (callNumber : String) : List String :=
  ["#### 🔄 API Request #" ++ callNumber ++ "\n\n",
   "- **Endpoint:** `" ++ api.url.getD "N/A" ++ "`\n",
   "- **Method:** `POST`\n",
   "- **Status Code:** `" ++ optIntStr api.status_code ++ "`\n",
   "- **Response Time:** `" ++ optNatStr api.response_time ++ "ms`\n",
   "- **Context Size:** `" ++ optIntStr api.context_size ++ " characters`\n",
   "- **Context Description:** " ++ api.context_description.getD "N/A" ++ "\n\n"]
  ++ (match api.headers with
      | some hs => ["**Request Headers:**\n"] ++ writeHeaderLines hs ++ ["\n"]
      | none => [])
  ++ (match api.request_payload with
      | some p => ["**Request Payload:**\n\n", "```json\n", jsonDumps p, "\n```\n\n"]
      | none => [])
  ++ (match api.usage with
      | some u => usageBlock u
      | none => [])
  ++ (match api.error with
      | some err =>
        ["**⚠️ Error Details:**\n",
         "- **Type:** `" ++ err.type.getD "N/A" ++ "`\n",
         "- **Message:** " ++ err.message.getD "N/A" ++ "\n"]
        ++ (match err.status_code with
            | some sc => ["- **Status Code:** `" ++ toString sc ++ "`\n"]
            | none => [])
        ++ (match err.response_body with
            | some rb => ["- **Response Body:** " ++ String.mk (rb.data.take 200) ++ "...\n"]
            | none => [])
        ++ ["\n"]
      | none => [])

/-- Model of `_write_refactoring_tasks`. -/
def refactoringTasksWrites (tasks : List ManualRec) (hist : List ApiCall) : List String :=
  (tasks.enum.map fun p =>
    let i := p.1
    let t := p.2
    let taskNumS : String :=
      match t.task_number with
      | some n => toString n
      | none => toString (i + 1)
    ["### " ++ taskNumS ++ ". " ++ t.task_name.getD "Unknown Task" ++ "\n\n",
     "**Status:** " ++ (if t.completed.getD false then "✅ Completed" else "❌ Failed") ++ "\n\n",
     "**Prompt:**\n",
     t.prompt.getD "N/A" ++ "\n\n"]
    ++ (match hist.get? i with
        | some api => apiCallDetailsWrites api taskNumS
        | none => [])
    ++ (let r := t.response.getD ""
        if r ≠ "" then ["**AI Response:**\n\n", r ++ "\n\n"]
        else ["**AI Response:** No response received\n\n"])
    ++ ["---\n\n"]).flatten

/-- Model of `_write_interactive_session`. -/
def interactiveSessionWrites (interactions : List ManualRec) (hist : List ApiCall) :
    List String :=
  (interactions.enum.map fun p =>
    let i := p.1
    let t := p.2
    ["### Interaction " ++ toString (i + 1) ++ " - " ++ t.timestamp.getD "N/A" ++ "\n\n",
     "**Context:** " ++ t.context_description.getD "N/A" ++ " ("
       ++ toString (t.context_size.getD 0) ++ " characters)\n\n",
     "**Status:** " ++ (if t.success.getD false then "✅ Success" else "❌ Failed") ++ "\n\n",
     "**👤 User Question:**\n",
     t.user_question.getD "N/A" ++ "\n\n"]
    ++ (match hist.get? i with
        | some api => apiCallDetailsWrites api (toString (i + 1))
        | none => [])
    ++ (let r := t.assistant_response.getD ""
        if r ≠ "" then ["**🤖 Assistant Response:**\n\n", r ++ "\n\n"]
        else ["**🤖 Assistant Response:** No response received\n\n"])
    ++ ["---\n\n"]).flatten

/-- Model of `_write_custom_context_analysis` (renders only the first task;
custom-context sessions carry exactly one). -/
def customContextWrites (tasks : List ManualRec) (hist : List ApiCall) : List String :=
  match tasks with
  | [] => []
  | t :: _ =>
    ["### " ++ t.task_name.getD "Custom Analysis" ++ "\n\n",
     "**Status:** " ++ (if t.completed.getD false then "✅ Completed" else "❌ Failed") ++ "\n\n"]
    ++ (match t.code_content with
        | some cc => ["**User's Code:**\n\n", "```\n", cc, "\n```\n\n"]
        | none => [])
    ++ ["**Analysis Prompt:**\n",
        t.prompt.getD "N/A" ++ "\n\n"]
    ++ (match hist with
        | api :: _ => apiCallDetailsWrites api "1"
        | [] => [])
    ++ (let r := t.response.getD ""
        if r ≠ "" then ["**AI Analysis:**\n\n", r ++ "\n\n"]
        else ["**AI Analysis:** No response received\n\n"])

/-- The mode-specific settings lines of the manual-context header. -/
def manualModeSettings (meta : ManualMeta) : List String :=
  let mode := meta.mode.getD ""
  let cm := meta.context_metadata.getD emptyCtxMetaRec
  if mode = "refactoring_examples" then
    ["- **Total Tasks:** `" ++ optIntStr meta.total_tasks ++ "`\n",
     "- **Completed Tasks:** `" ++ optIntStr meta.completed_tasks ++ "`\n",
     "- **Context File:** `" ++ cm.context_file.getD "N/A" ++ "`\n",
     "- **Context Size:** `" ++ optIntStr cm.context_size ++ " characters`\n"]
  else if mode = "interactive_context" then
    ["- **Total Interactions:** `" ++ optIntStr meta.total_interactions ++ "`\n",
     "- **Context Switches:** `" ++ optIntStr meta.total_context_switches ++ "`\n"]
  else if mode = "custom_context" then
    ["- **Custom Type:** `" ++ meta.custom_type.getD "N/A" ++ "`\n",
     "- **Context Size:** `" ++ optIntStr cm.context_size ++ " characters`\n"]
  else []

/-- The `## Context Management` section, written only in interactive mode
when the `context_switches` key is present. -/
def manualSwitchesSection (meta : ManualMeta) : List String :=
  if meta.mode.getD "" = "interactive_context" then
    match meta.context_switches with
    | none => []
    | some [] => ["## Context Management\n\n", "No context switches recorded.\n\n"]
    | some (s :: ss) =>
      ["## Context Management\n\n", "### Context Switches\n\n"]
      ++ ((s :: ss).enum.map fun p =>
          let sw := p.2
          ["#### " ++ toString (p.1 + 1) ++ ". " ++ sw.action.getD "Unknown Action"
             ++ " - " ++ sw.timestamp.getD "N/A" ++ "\n\n",
           "- **Action:** `" ++ sw.action.getD "N/A" ++ "`\n"]
          ++ (match sw.file_path with
              | some fp => ["- **File Path:** `" ++ fp ++ "`\n"]
              | none => [])
          ++ ["- **Context Size:** `" ++ optIntStr sw.context_size ++ " characters`\n",
              "- **Description:** " ++ sw.description.getD "N/A" ++ "\n\n"]).flatten
  else []

/-- The mode-dispatched task/interaction section of the manual-context
document. -/
def manualBodySection (tasks : List ManualRec) (hist : List ApiCall) (meta : ManualMeta) :
    List String :=
  let mode := meta.mode.getD ""
  if mode = "refactoring_examples" then
    ["## Refactoring Tasks\n\n"] ++ refactoringTasksWrites tasks hist
  else if mode = "interactive_context" then
    ["## Interactive Session\n\n"] ++ interactiveSessionWrites tasks hist
  else if mode = "custom_context" then
    ["## Custom Context Analysis\n\n"] ++ customContextWrites tasks hist
  else []

/-- The full document written by `save_manual_context_session_to_markdown`. -/
def manualDocWrites (genTime script : String) (tasks : List ManualRec) (hist : List ApiCall)
    (meta : ManualMeta) : List String :=
  ["# Manual Context Session: " ++ meta.model_id.getD "Unknown Model" ++ "\n\n",
   "**Generated:** " ++ genTime ++ "\n\n",
   "**Script:** " ++ script ++ "\n\n",
   "**Mode:** " ++ meta.mode.getD "N/A" ++ "\n\n",
   "**Session Duration:** " ++ meta.duration.getD "N/A" ++ "\n\n",
   "---\n\n",
   "## Session Settings\n\n",
   "- **Model ID:** `" ++ meta.model_id.getD "N/A" ++ "`\n",
   "- **Mode:** `" ++ meta.mode.getD "N/A" ++ "`\n",
   "- **Duration:** `" ++ meta.duration.getD "N/A" ++ "`\n",
   "- **Total API Calls:** `" ++ optIntStr meta.api_calls_count ++ "`\n"]
  ++ manualModeSettings meta
  ++ ["\n"]
  ++ manualSwitchesSection meta
  ++ manualBodySection tasks hist meta
  ++ ["## Continue Working\n\n",
      "To continue with this model:\n\n",
      "```bash\n",
      "python 05-manual-context.py " ++ meta.model_id.getD "MODEL_ID" ++ "\n",
      "```\n"]

/-- One model record of the model-listing export. -/
structure ModelRec where
  id : Option String
  owned_by : Option String
  created : Option Int
  object : Option String

/-- The CSV cells written for one model by `save_models_to_csv`:

    writer.writerow({
        'model_id': model.get('id', 'N/A'),
        'owner': model.get('owned_by', 'N/A'),
        'created': model.get('created', 0),
        'object_type': model.get('object', 'model')
    })
-/
def modelCsvRow (m : ModelRec) : List String :=
  [m.id.getD "N/A",
   m.owned_by.getD "N/A",
   toString (m.created.getD 0),
   m.object.getD "model"]

/-- All rows of the CSV file, header first. -/
def modelCsvRows (models : List ModelRec) : List (List String) :=
  ["model_id", "owner", "created", "object_type"] :: models.map modelCsvRow

/-- The filesystem as the save functions see it: whether `responses/` already
exists, whether `os.makedirs` would succeed, and whether opening and writing
the report file would succeed. -/
structure FsEnv where
  dirExists : Bool
  mkdirOk : Bool
  writeOk : Bool

/-- Model of `_ensure_responses_directory`: creates `responses/` if absent;
an `OSError` from `os.makedirs` escapes (this helper has no handler, and
every `save_*` function calls it before entering its `try` block). -/
def ensure_responses_directory (env : FsEnv) : Except String String :=
  if env.dirExists then Except.ok "responses"
  else if env.mkdirOk then Except.ok "responses"
  else Except.error "OSError: cannot create responses directory"

/-- Filename generated by `save_chat_session_to_markdown` (and, with its own
default `script_name`, by `save_tool_calling_session_to_markdown`):
`f"{timestamp}_{script_name}_{model_safe}.md"`. -/
def chatFilename (ts script : String) (meta : ChatMeta) : String :=
  ts ++ "_" ++ script ++ "_" ++ sanitizeModelId (meta.model_id.getD "unknown") ++ ".md"

/-- Filename generated by `save_tool_calling_session_to_markdown`. -/
def toolFilename (ts script : String) (meta : ToolMeta) : String :=
  ts ++ "_" ++ script ++ "_" ++ sanitizeModelId (meta.model_id.getD "unknown") ++ ".md"

/-- Filename generated by `save_context_search_session_to_markdown`:
`f"{timestamp}_{script_name}_{mode}.md"`. -/
def contextFilename (ts script : String) (meta : ContextMeta) : String :=
  ts ++ "_" ++ script ++ "_" ++ meta.mode.getD "unknown" ++ ".md"

/-- Filename generated by `save_manual_context_session_to_markdown`:
`f"{timestamp}_{script_name}_{mode}_{model_safe}.md"` — the mode tag is
embedded without sanitization. -/
def manualFilename (ts script : String) (meta : ManualMeta) : String :=
  ts ++ "_" ++ script ++ "_" ++ meta.mode.getD "unknown" ++ "_"
    ++ sanitizeModelId (meta.model_id.getD "unknown") ++ ".md"

/-- The document of `save_chat_session_to_markdown` (header, settings, the
conversation flow, usage hint); an `IndexError` from the flow escapes the
writing region. -/
def chatDocWrites (genTime script : String) (msgs : List Msg) (hist : List ApiCall)
    (meta : ChatMeta) : Except String (List String) :=
  match chatFlowAux 0 msgs hist with
  | Except.error e => Except.error e
  | Except.ok flow =>
    Except.ok (
      ["# Chat Session: " ++ meta.model_id.getD "Unknown Model" ++ "\n\n",
       "**Generated:** " ++ genTime ++ "\n\n",
       "**Script:** " ++ script ++ "\n\n",
       "**Session Duration:** " ++ meta.duration.getD "N/A" ++ "\n\n",
       "---\n\n",
       "## Session Settings\n\n",
       "- **Model ID:** `" ++ meta.model_id.getD "N/A" ++ "`\n",
       "- **Temperature:** `" ++ meta.temperature.getD "N/A" ++ "`\n",
       "- **Max Tokens:** `" ++ optIntStr meta.max_tokens ++ "`\n",
       "- **Total Messages:** `" ++ toString msgs.length ++ "`\n",
       "- **Total API Calls:** `" ++ optIntStr meta.api_calls_count ++ "`\n\n",
       "## Conversation Flow\n\n"]
      ++ flow
      ++ ["## Continue This Session\n\n",
          "To continue with this model:\n\n",
          "```bash\n",
          "python 02-chat.py " ++ meta.model_id.getD "MODEL_ID" ++ "\n",
          "```\n"])

/-- Model of `save_chat_session_to_markdown`: the directory step runs before
the `try` block, so its failure propagates; inside the `try`, an I/O failure
or an exception while producing the document is caught and the function
returns `none`. -/
def save_chat_session_to_markdown (env : FsEnv) (ts genTime : String)
    (conversation_history : List Msg) (api_calls_history : List ApiCall)
    (session_metadata : ChatMeta) (script_name : String) : Except String (Option String) :=
  match ensure_responses_directory env with
  | Except.error e => Except.error e
  | Except.ok dir =>
    let filepath := dir ++ "/" ++ chatFilename ts script_name session_metadata
    if env.writeOk then
      match chatDocWrites genTime script_name conversation_history api_calls_history
          session_metadata with
      | Except.ok _ => Except.ok (some filepath)
      | Except.error _ => Except.ok none
    else Except.ok none

/-- Model of `save_tool_calling_session_to_markdown` (its document is total,
so only an I/O failure can reach the handler). -/
def save_tool_calling_session_to_markdown (env : FsEnv) (ts genTime : String)
    (session_steps : List ToolStep) (session_metadata : ToolMeta) (script_name : String) :
    Except String (Option String) :=
  match ensure_responses_directory env with
  | Except.error e => Except.error e
  | Except.ok dir =>
    let filepath := dir ++ "/" ++ toolFilename ts script_name session_metadata
    if env.writeOk then
      let _ := toolDocWrites genTime script_name session_steps session_metadata
      Except.ok (some filepath)
    else Except.ok none

/-- Model of `save_context_search_session_to_markdown`. -/
def save_context_search_session_to_markdown (env : FsEnv) (ts genTime : String)
    (search_history : List SearchRec) (session_metadata : ContextMeta) (script_name : String) :
    Except String (Option String) :=
  match ensure_responses_directory env with
  | Except.error e => Except.error e
  | Except.ok dir =>
    let filepath := dir ++ "/" ++ contextFilename ts script_name session_metadata
    if env.writeOk then
      let _ := contextDocWrites genTime script_name search_history session_metadata
      Except.ok (some filepath)
    else Except.ok none

/-- Model of `save_manual_context_session_to_markdown`. -/
def save_manual_context_session_to_markdown (env : FsEnv) (ts genTime : String)
    (tasks_or_interactions : List ManualRec) (api_calls_history : List ApiCall)
    (session_metadata : ManualMeta) (script_name : String) : Except String (Option String) :=
  match ensure_responses_directory env with
  | Except.error e => Except.error e
  | Except.ok dir =>
    let filepath := dir ++ "/" ++ manualFilename ts script_name session_metadata
    if env.writeOk then
      let _ := manualDocWrites genTime script_name tasks_or_interactions api_calls_history
        session_metadata
      Except.ok (some filepath)
    else Except.ok none

/-! ## Helper lemmas -/

/-- Indexing a list at a nonnegative in-range Python index returns the
element. -/
theorem pyIndexE_ofNat (l : List α) (n : Nat) (h : n < l.length) :
    pyIndexE l (n : Int) = Except.ok (l.get ⟨n, h⟩) := by
  unfold pyIndexE
  rw [if_neg (by omega : ¬((n : Int) < 0))]
  simp [Int.toNat_ofNat, List.getElem?_eq_getElem h]

/-- Python's `l[-1]` on a non-empty list is its last element. -/
theorem pyIndexE_neg_one (l : List α) (h : l ≠ []) :
    pyIndexE l (-1) = Except.ok (l.getLast h) := by
  unfold pyIndexE
  rw [if_pos (by omega : (-1 : Int) < 0)]
  have hlen : 0 < l.length := List.length_pos.mpr h
  rw [if_pos (by simpa using hlen)]
  have h1 : l.length - ((-(-1 : Int)).toNat) = l.length - 1 := by norm_num
  rw [h1]
  have h2 : l.length - 1 < l.length := by omega
  simp [List.getElem?_eq_getElem h2, List.getLast_eq_getElem]

/-! ## Claim theorems -/

/-- C1: for every headers mapping rendered by a session renderer, the shared
header loop (`writeHeaderLines`, used by all four renderers' API-detail
blocks) renders each entry in input order, replacing the value with the
literal `[REDACTED]` exactly when the lower-cased header name contains the
substring `token` or `authorization`, and leaving every other value
unchanged — the output is position-for-position `specHeaderLine` of the
input, so order and length are preserved. -/
theorem c1_redaction_headers (hs : List (String × String)) :
    writeHeaderLines hs = hs.map specHeaderLine := by
  induction hs with
  | nil => rfl
  | cons p t ih =>
    cases p with
    | mk a b => simp [writeHeaderLines, specHeaderLine, ih]

/-- C5: the tool-calling renderer's function-result body (written between the
```` ```json ```` fences by `toolCallWrites`) parses a string result as JSON
and emits its pretty-printed form; when the parse fails it emits the raw
string unchanged.  The fallback is a total function of the input (the model
of the `except (json.JSONDecodeError, TypeError)` handler), so it raises for
no input value. -/
theorem c5_function_result_fallback (s : String) :
    (jsonParse s = none → functionResultBody (JVal.str s) = s)
    ∧ (∀ j, jsonParse s = some j → functionResultBody (JVal.str s) = jsonDumps j) := by
  constructor
  · intro h
    simp [functionResultBody, h]
  · intro j h
    simp [functionResultBody, h]

/-- C9 (counterexample): a step of unknown kind is not skipped without
output — the unconditional separator write at the end of the step loop emits
`---` for it, so the claim that no content is emitted for such a step is
false at this concrete input. -/
theorem c9_counterexample :
    toolStepWrites (ToolStep.mk none (some "mystery") none none none none) = ["---\n\n"]
    ∧ toolStepWrites (ToolStep.mk none (some "mystery") none none none none) ≠ [] := by
  constructor
  · rfl
  · decide

/-- C9 (amended): a step whose `step_type` is none of `initial_request`,
`tool_execution`, `final_response` contributes no step-specific content and
raises no error, but the per-step separator `---` is still written for it:
its writes are exactly `["---\n\n"]`. -/
theorem c9_amended (step : ToolStep)
    (h1 : step.step_type.getD "unknown" ≠ "initial_request")
    (h2 : step.step_type.getD "unknown" ≠ "tool_execution")
    (h3 : step.step_type.getD "unknown" ≠ "final_response") :
    toolStepWrites step = ["---\n\n"] := by
  simp [toolStepWrites, h1, h2, h3]

/-- C9 (witness): the amended theorem evaluated at a concrete unknown step
kind. -/
theorem c9_witness :
    toolStepWrites (ToolStep.mk (some 3) (some "bogus") none none none none) = ["---\n\n"] :=
  c9_amended (ToolStep.mk (some 3) (some "bogus") none none none none)
    (by decide) (by decide) (by decide)

/-- C3 (counterexample): a model record with no keys renders its `created`
cell as `"0"` and its object-type cell as `"model"`, and a result chunk with
no keys renders its repository as `Unknown` — not as the literal `N/A` the
claim states for every missing field. -/
theorem c3_counterexample :
    modelCsvRow (ModelRec.mk none none none none) = ["N/A", "N/A", "0", "model"]
    ∧ ("0" : String) ≠ "N/A"
    ∧ chunkRepoName (ChunkRec.mk none none none none) = "Unknown"
    ∧ ("Unknown" : String) ≠ "N/A" := by
  refine ⟨rfl, by decide, rfl, by decide⟩

/-- C3 (amended): every field access of the renderers is a default-valued
lookup, so a record with missing keys renders without raising; each missing
field renders as that field's fixed default — `N/A` for the CSV id/owner
cells, but `0` for `created`, `model` for the object type, and `Unknown` for
a chunk's repository and path in the context-search renderer — not uniformly
`N/A`. -/
theorem c3_amended (m : ModelRec) (c : ChunkRec)
    (h1 : m.created = none) (h2 : m.id = none) (h3 : m.object = none) (h4 : c.blob = none) :
    (modelCsvRow m).length = 4
    ∧ (modelCsvRow m).get? 0 = some "N/A"
    ∧ (modelCsvRow m).get? 2 = some "0"
    ∧ (modelCsvRow m).get? 3 = some "model"
    ∧ chunkRepoName c = "Unknown"
    ∧ chunkPath c = "Unknown" := by
  refine ⟨rfl, ?_, ?_, ?_, ?_, ?_⟩
  · simp [modelCsvRow, h2]
  · simp [modelCsvRow, h1]
    rfl
  · simp [modelCsvRow, h3]
  · simp [chunkRepoName, h4]
  · simp [chunkPath, h4]

/-- C3 (witness): the amended theorem evaluated at the all-missing record and
chunk. -/
theorem c3_witness :
    (modelCsvRow (ModelRec.mk none none none none)).length = 4
    ∧ (modelCsvRow (ModelRec.mk none none none none)).get? 0 = some "N/A"
    ∧ (modelCsvRow (ModelRec.mk none none none none)).get? 2 = some "0"
    ∧ (modelCsvRow (ModelRec.mk none none none none)).get? 3 = some "model"
    ∧ chunkRepoName (ChunkRec.mk none none none none) = "Unknown"
    ∧ chunkPath (ChunkRec.mk none none none none) = "Unknown" :=
  c3_amended (ModelRec.mk none none none none) (ChunkRec.mk none none none none)
    rfl rfl rfl rfl

/-- C6: for a context-search session whose three records carry response
latencies 100, 250 and 0 (and 2, 1 and 0 results respectively), the
performance summary renders total `350ms`, average `116.7ms` (one decimal),
fastest `0ms` and slowest `250ms`; and for every history the total result
count is the sum of the result-list lengths over the records. -/
theorem c6_performance_summary :
    contextPerfSection
      [SearchRec.mk (some "q1")
         (some [ChunkRec.mk none none none none, ChunkRec.mk none none none none])
         (some (ApiCall.mk none none (some 100) none none none none none none none)) none,
       SearchRec.mk (some "q2") (some [ChunkRec.mk none none none none])
         (some (ApiCall.mk none none (some 250) none none none none none none none)) none,
       SearchRec.mk (some "q3") none
         (some (ApiCall.mk none none (some 0) none none none none none none none)) none]
      = ["## Performance Summary\n\n",
         "- **Total Results Found:** `3`\n",
         "- **Total API Response Time:** `350ms`\n",
         "- **Average Response Time:** `116.7ms`\n",
         "- **Fastest Query:** `0ms`\n",
         "- **Slowest Query:** `250ms`\n\n"]
    ∧ ∀ hist : List SearchRec,
        contextTotalResults hist = (hist.map fun s => (s.results.getD []).length).sum :=
  ⟨rfl, fun _ => rfl⟩

/-- C7 (counterexample): for an empty record sequence the rendered
context-search document contains no performance summary at all — neither the
section heading nor a `Fastest Query: 0ms` line — so the claim that the
summary reports 0 for minimum and maximum latency is false at this concrete
input (the whole section sits under `if search_history:`). -/
theorem c7_counterexample :
    "## Performance Summary\n\n"
      ∉ contextDocWrites "2025-01-01 12:00:00" "context-search-session" []
          (ContextMeta.mk (some "keyword") (some "0:01") [] (some "https://example") false [] false)
    ∧ "- **Fastest Query:** `0ms`\n"
      ∉ contextDocWrites "2025-01-01 12:00:00" "context-search-session" []
          (ContextMeta.mk (some "keyword") (some "0:01") [] (some "https://example") false [] false) := by
  constructor
  · decide
  · decide

/-- C7 (amended): for an empty record sequence the renderer emits no
performance-summary section at all (its writes are `[]`); the zero defaults
of `min`/`max` over an empty collection, which the summary's expressions
would use, are never exercised for an empty history. -/
theorem c7_amended :
    contextPerfSection ([] : List SearchRec) = []
    ∧ natMinD [] = 0
    ∧ natMaxD [] = 0 :=
  ⟨rfl, rfl, rfl⟩

/-- C2 (counterexample): an I/O failure while creating the output directory
is not caught — `_ensure_responses_directory` is called before the `try`
block — so at this concrete input `save_chat_session_to_markdown` propagates
the exception instead of returning `None`. -/
theorem c2_counterexample :
    save_chat_session_to_markdown (FsEnv.mk false false true) "20250101_120000"
        "2025-01-01 12:00:00" [] [] (ChatMeta.mk none none none none none) "chat-session"
      = Except.error "OSError: cannot create responses directory"
    ∧ save_chat_session_to_markdown (FsEnv.mk false false true) "20250101_120000"
        "2025-01-01 12:00:00" [] [] (ChatMeta.mk none none none none none) "chat-session"
      ≠ Except.ok none := by
  constructor
  · rfl
  · intro h
    simp [save_chat_session_to_markdown, ensure_responses_directory] at h

/-- C2 (amended): once the output directory step has succeeded, every
exception raised while formatting or writing is caught and each save_*
renderer returns without propagating (`Except.ok`); in particular a write
failure makes the chat renderer return `none`.  An I/O failure while
creating the output directory, by contrast, propagates (see the
counterexample). -/
theorem c2_amended (env : FsEnv) (ts genTime script : String)
    (msgs : List Msg) (hist : List ApiCall) (cm : ChatMeta)
    (steps : List ToolStep) (tm : ToolMeta)
    (sh : List SearchRec) (xm : ContextMeta)
    (tasks : List ManualRec) (mh : List ApiCall) (mm : ManualMeta)
    (hdir : env.dirExists = true ∨ env.mkdirOk = true) :
    (∃ r, save_chat_session_to_markdown env ts genTime msgs hist cm script = Except.ok r)
    ∧ (∃ r, save_tool_calling_session_to_markdown env ts genTime steps tm script = Except.ok r)
    ∧ (∃ r, save_context_search_session_to_markdown env ts genTime sh xm script = Except.ok r)
    ∧ (∃ r, save_manual_context_session_to_markdown env ts genTime tasks mh mm script
          = Except.ok r)
    ∧ (env.writeOk = false →
        save_chat_session_to_markdown env ts genTime msgs hist cm script = Except.ok none) := by
  have hd : ensure_responses_directory env = Except.ok "responses" := by
    rcases hdir with h | h
    · simp [ensure_responses_directory, h]
    · by_cases d : env.dirExists <;> simp [ensure_responses_directory, h, d]
  refine ⟨?_, ?_, ?_, ?_, ?_⟩
  · unfold save_chat_session_to_markdown
    rw [hd]
    by_cases w : env.writeOk
    · rcases hdoc : chatDocWrites genTime script msgs hist cm with e | d <;> simp [w, hdoc]
    · simp [w]
  · unfold save_tool_calling_session_to_markdown
    rw [hd]
    by_cases w : env.writeOk <;> simp [w]
  · unfold save_context_search_session_to_markdown
    rw [hd]
    by_cases w : env.writeOk <;> simp [w]
  · unfold save_manual_context_session_to_markdown
    rw [hd]
    by_cases w : env.writeOk <;> simp [w]
  · intro w
    unfold save_chat_session_to_markdown
    rw [hd]
    simp [w]

/-- C2 (witness): the amended theorem evaluated at an environment whose
directory already exists but whose write fails. -/
theorem c2_witness :
    (∃ r, save_chat_session_to_markdown (FsEnv.mk true true false) "t" "g" []
        [] (ChatMeta.mk none none none none none) "chat-session" = Except.ok r)
    ∧ (∃ r, save_tool_calling_session_to_markdown (FsEnv.mk true true false) "t" "g" []
        (ToolMeta.mk none none none none none none none [] []) "tool-calling-session"
          = Except.ok r)
    ∧ (∃ r, save_context_search_session_to_markdown (FsEnv.mk true true false) "t" "g" []
        (ContextMeta.mk none none [] none false [] false) "context-search-session"
          = Except.ok r)
    ∧ (∃ r, save_manual_context_session_to_markdown (FsEnv.mk true true false) "t" "g" [] []
        (ManualMeta.mk none none none none none none none none none none none)
        "manual-context-session" = Except.ok r)
    ∧ ((FsEnv.mk true true false).writeOk = false →
        save_chat_session_to_markdown (FsEnv.mk true true false) "t" "g" []
          [] (ChatMeta.mk none none none none none) "chat-session" = Except.ok none) :=
  c2_amended (FsEnv.mk true true false) "t" "g" "chat-session" [] []
    (ChatMeta.mk none none none none none) []
    (ToolMeta.mk none none none none none none none [] []) []
    (ContextMeta.mk none none [] none false [] false) [] []
    (ManualMeta.mk none none none none none none none none none none none)
    (Or.inl rfl)

/-- C10: when an assistant message occurs before any user message and
`api_calls_history` is non-empty, the computed api-call index is `-1`, which
passes the `api_call_index < len(api_calls_history)` check, so the token
usage rendered for that assistant message is drawn from the last record of
`api_calls_history` (Python negative indexing) rather than omitted. -/
theorem c10_assistant_before_user (c : String) (rest : List Msg) (hist : List ApiCall)
    (h : hist ≠ []) :
    chatFlowAux 0 (Msg.mk (some "assistant") (some c) :: rest) hist =
      (chatFlowAux 0 rest hist).map fun tail =>
        assistantHeadWrites (Msg.mk (some "assistant") (some c))
        ++ assistantUsagePart (hist.getLast h) ++ ["---\n\n"] ++ tail := by
  have hrole : msgRole (Msg.mk (some "assistant") (some c)) = "assistant" := rfl
  have hne : msgRole (Msg.mk (some "assistant") (some c)) ≠ "user" := by
    rw [hrole]; decide
  have hcond : ((0 : Nat) : Int) - 1 < (hist.length : Int) := by
    have := List.length_pos.mpr h
    omega
  have hidx : ((0 : Nat) : Int) - 1 = (-1 : Int) := by norm_num
  rw [chatFlowAux, if_neg hne, if_pos hrole, if_pos hcond, hidx, pyIndexE_neg_one hist h]
  rcases htail : chatFlowAux 0 rest hist with e | tail <;> simp [Except.map, htail]

/-- C10 (witness): the theorem evaluated at a leading assistant message and a
one-record history — the rendered usage figures are those of that (last)
record. -/
theorem c10_witness :
    chatFlowAux 0 [Msg.mk (some "assistant") (some "ok")]
        [ApiCall.mk none none none none none none
           (some (Usage.mk (some 10) (some 5) (some 15))) none none none]
      = Except.ok ["#### 🤖 Assistant Response\n\n", "ok\n\n",
          "**Token Usage:**\n", "- Prompt Tokens: `10`\n", "- Completion Tokens: `5`\n",
          "- Total Tokens: `15`\n\n", "---\n\n"] := by
  have h := c10_assistant_before_user "ok" []
    [ApiCall.mk none none none none none none
       (some (Usage.mk (some 10) (some 5) (some 15))) none none none]
    (List.cons_ne_nil _ _)
  rw [h]
  rfl

/-- With a positive user count, the chat conversation loop never raises and
matches the spec-side rendering. -/
theorem chatFlow_eq_spec_of_pos (msgs : List Msg) :
    ∀ (count : Nat) (hist : List ApiCall), 1 ≤ count →
      chatFlowAux count msgs hist = Except.ok (chatFlowSpecAux count msgs hist) := by
  induction msgs with
  | nil => intro count hist _; rfl
  | cons m rest ih =>
    intro count hist hc
    by_cases hu : msgRole m = "user"
    · by_cases hlt : count < hist.length
      · have hcond : (((count + 1 : Nat) : Int) - 1) < (hist.length : Int) := by
          push_cast; omega
        have hcast : (((count + 1 : Nat) : Int) - 1) = ((count : Nat) : Int) := by
          push_cast; ring
        have hcond2 : ((count : Nat) : Int) < (hist.length : Int) := by
          omega
        simp only [chatFlowAux, chatFlowSpecAux, if_pos hu,
          if_pos hcond, hcast, if_pos hcond2, pyIndexE_ofNat hist count hlt,
          List.get?_eq_get hlt, ih (count + 1) hist (by omega)]
      · have hcond : ¬((((count + 1 : Nat) : Int) - 1) < (hist.length : Int)) := by
          push_cast; omega
        have hget : hist.get? count = none := by
          rw [List.get?_eq_none]; omega
        simp only [chatFlowAux, chatFlowSpecAux, if_pos hu,
          if_neg hcond, hget, ih (count + 1) hist (by omega)]
    · by_cases ha : msgRole m = "assistant"
      · obtain ⟨k, rfl⟩ : ∃ k, count = k + 1 := ⟨count - 1, by omega⟩
        have hsub : k + 1 - 1 = k := rfl
        by_cases hlt : k < hist.length
        · have hcond : (((k + 1 : Nat) : Int) - 1) < (hist.length : Int) := by
            push_cast; omega
          have hcast : (((k + 1 : Nat) : Int) - 1) = ((k : Nat) : Int) := by
            push_cast; ring
          have hcond2 : ((k : Nat) : Int) < (hist.length : Int) := by
            omega
          simp only [chatFlowAux, chatFlowSpecAux, if_neg hu, if_pos ha,
            if_pos hcond, hcast, if_pos hcond2, pyIndexE_ofNat hist k hlt, hsub,
            List.get?_eq_get hlt, ih (k + 1) hist hc]
        · have hcond : ¬((((k + 1 : Nat) : Int) - 1) < (hist.length : Int)) := by
            push_cast; omega
          have hget : hist.get? k = none := by
            rw [List.get?_eq_none]; omega
          simp only [chatFlowAux, chatFlowSpecAux, if_neg hu, if_pos ha,
            if_neg hcond, hsub, hget, ih (k + 1) hist hc]
      · simp only [chatFlowAux, chatFlowSpecAux, if_neg hu, if_neg ha]
        exact ih count hist hc

/-- When no assistant message precedes the first user message, the chat
conversation loop never raises and matches the spec-side rendering. -/
theorem chatFlow_eq_spec_of_safeOrder :
    ∀ (msgs : List Msg) (hist : List ApiCall), safeOrder msgs = true →
      chatFlowAux 0 msgs hist = Except.ok (chatFlowSpecAux 0 msgs hist) := by
  intro msgs
  induction msgs with
  | nil => intro hist _; rfl
  | cons m rest ih =>
    intro hist hs
    by_cases hu : msgRole m = "user"
    · by_cases hlt : 0 < hist.length
      · have hcond : (((0 + 1 : Nat) : Int) - 1) < (hist.length : Int) := by
          push_cast; omega
        have hcast : (((0 + 1 : Nat) : Int) - 1) = ((0 : Nat) : Int) := by
          norm_num
        have hcond2 : ((0 : Nat) : Int) < (hist.length : Int) := by omega
        simp only [chatFlowAux, chatFlowSpecAux, if_pos hu,
          if_pos hcond, hcast, if_pos hcond2, pyIndexE_ofNat hist 0 hlt,
          List.get?_eq_get hlt, chatFlow_eq_spec_of_pos rest 1 hist (by omega)]
      · have hcond : ¬((((0 + 1 : Nat) : Int) - 1) < (hist.length : Int)) := by
          push_cast; omega
        have hget : hist.get? 0 = none := by
          rw [List.get?_eq_none]; omega
        simp only [chatFlowAux, chatFlowSpecAux, if_pos hu,
          if_neg hcond, hget, chatFlow_eq_spec_of_pos rest 1 hist (by omega)]
    · by_cases ha : msgRole m = "assistant"
      · rw [safeOrder, if_pos ha] at hs
        exact absurd hs (by decide)
      · have hs' : safeOrder rest = true := by
          rw [safeOrder, if_neg ha, if_neg hu] at hs
          exact hs
        simp only [chatFlowAux, chatFlowSpecAux, if_neg hu, if_neg ha]
        exact ih hist hs'

/-- C4 (counterexample): a conversation whose api-call history is shorter
than its user-message count can still abort the renderer — an assistant
message before any user message with an empty history hits `history[-1]`,
raising `IndexError`; the outer handler then returns `None` and nothing
renders, so the claim that such inputs always render (trailing turns merely
omitting the API subsection) is false at this concrete input. -/
theorem c4_counterexample :
    chatFlowAux 0 [Msg.mk (some "assistant") (some "hello"), Msg.mk (some "user") (some "hi")] []
      = Except.error "IndexError"
    ∧ save_chat_session_to_markdown (FsEnv.mk true true true) "20250101_120000" "2025-01-01"
        [Msg.mk (some "assistant") (some "hello"), Msg.mk (some "user") (some "hi")] []
        (ChatMeta.mk none none none none none) "chat-session" = Except.ok none
    ∧ List.length ([] : List ApiCall)
        < userCount [Msg.mk (some "assistant") (some "hello"), Msg.mk (some "user") (some "hi")] := by
  refine ⟨rfl, rfl, by decide⟩

/-- C4 (amended): for every conversation in which no assistant message
precedes the first user message and whose api-call history is shorter than
the number of user messages, the chat renderer raises no error and produces
the spec-side rendering: trailing user turns render without the API-detail
subsection (the spec-side function pairs the `c`-th user turn with
`hist.get? (c-1)` and omits the block when that is `none`), and everything
else renders normally. -/
theorem c4_amended (msgs : List Msg) (hist : List ApiCall)
    (h1 : safeOrder msgs = true) (h2 : hist.length < userCount msgs) :
    chatFlowAux 0 msgs hist = Except.ok (chatFlowSpecAux 0 msgs hist) :=
  chatFlow_eq_spec_of_safeOrder msgs hist h1

/-- C4 (witness): the amended theorem evaluated at a two-turn conversation
with a one-record history — the second user turn renders without an API
block and no error is raised. -/
theorem c4_witness :
    chatFlowAux 0
        [Msg.mk (some "user") (some "a"), Msg.mk (some "assistant") (some "b"),
         Msg.mk (some "user") (some "c")]
        [ApiCall.mk (some "https://x") (some 200) (some 7) (some []) none none none none none none]
      = Except.ok (chatFlowSpecAux 0
          [Msg.mk (some "user") (some "a"), Msg.mk (some "assistant") (some "b"),
           Msg.mk (some "user") (some "c")]
          [ApiCall.mk (some "https://x") (some 200) (some 7) (some []) none none none none none none]) :=
  c4_amended
    [Msg.mk (some "user") (some "a"), Msg.mk (some "assistant") (some "b"),
     Msg.mk (some "user") (some "c")]
    [ApiCall.mk (some "https://x") (some 200) (some 7) (some []) none none none none none none]
    rfl (by decide)

/-- Absence of the substring `::` is adjacency-freedom of two colons. -/
theorem hasSub_colons_iff (l : List Char) :
    hasSubCL [':', ':'] l = false ↔ List.Chain' (fun a b => ¬(a = ':' ∧ b = ':')) l := by
  induction l with
  | nil => simp [hasSubCL]
  | cons c rest ih =>
    cases rest with
    | nil => simp [hasSubCL, beginsWithCL]
    | cons d t =>
      rw [List.chain'_cons, ← ih]
      simp only [hasSubCL, beginsWithCL, Bool.or_eq_false_iff, Bool.and_eq_false_iff,
        decide_eq_false_iff_not, Bool.and_true]
      constructor
      · rintro ⟨h1, h2⟩
        refine ⟨?_, h2⟩
        intro hcd
        obtain ⟨hc, hd⟩ := hcd
        rcases h1 with h | h
        · exact h hc.symm
        · exact h hd.symm
      · rintro ⟨h1, h2⟩
        refine ⟨?_, h2⟩
        by_cases hc : c = ':'
        · by_cases hd : d = ':'
          · exact absurd ⟨hc, hd⟩ h1
          · exact Or.inr fun h => hd h.symm
        · exact Or.inl fun h => hc h.symm

/-- Absence of the substring `/` is absence of the character `/`. -/
theorem hasSub_slash_iff (l : List Char) :
    hasSubCL ['/'] l = false ↔ '/' ∉ l := by
  induction l with
  | nil => simp [hasSubCL]
  | cons c rest ih =>
    simp only [hasSubCL, beginsWithCL, Bool.or_eq_false_iff, Bool.and_eq_false_iff,
      decide_eq_false_iff_not, Bool.and_true, List.mem_cons, ← ih]
    tauto

/-- The head of `replaceColons l` is the head of `l` or an underscore. -/
theorem replaceColons_head (l : List Char) :
    (replaceColons l).head? = l.head? ∨ (replaceColons l).head? = some '_' := by
  match l with
  | [] => exact Or.inl rfl
  | [c] => exact Or.inl rfl
  | c :: d :: rest =>
    rw [replaceColons]
    by_cases h : c = ':' ∧ d = ':'
    · rw [if_pos h]
      exact Or.inr rfl
    · rw [if_neg h]
      exact Or.inl rfl

/-- After `replace('::', '_')` no two colons are adjacent. -/
theorem replaceColons_chain (l : List Char) :
    List.Chain' (fun a b => ¬(a = ':' ∧ b = ':')) (replaceColons l) := by
  induction l using replaceColons.induct with
  | case1 => simp [replaceColons]
  | case2 c => simp [replaceColons]
  | case3 c d rest h ih =>
    rw [replaceColons, if_pos h]
    rw [List.chain'_cons']
    refine ⟨?_, ih⟩
    intro y _ hy
    exact absurd hy.1 (by decide)
  | case4 c d rest h ih =>
    rw [replaceColons, if_neg h]
    rw [List.chain'_cons']
    refine ⟨?_, ih⟩
    intro y hy hcy
    rcases replaceColons_head (d :: rest) with hh | hh
    · rw [hh] at hy
      simp at hy
      exact h ⟨hcy.1, hy ▸ hcy.2⟩
    · rw [hh] at hy
      simp at hy
      rw [← hy] at hcy
      exact absurd hcy.2 (by decide)

/-- `replace('/', '_')` creates no colon adjacency. -/
theorem replaceSlash_chain {l : List Char}
    (h : List.Chain' (fun a b => ¬(a = ':' ∧ b = ':')) l) :
    List.Chain' (fun a b => ¬(a = ':' ∧ b = ':')) (replaceSlash l) := by
  unfold replaceSlash
  rw [List.chain'_map]
  refine h.imp ?_
  intro a b hab hfab
  apply hab
  constructor
  · by_cases h' : a = '/'
    · rw [h'] at hfab
      simp at hfab
    · have := hfab.1
      rw [if_neg h'] at this
      exact this
  · by_cases h' : b = '/'
    · rw [h'] at hfab
      simp at hfab
    · have := hfab.2
      rw [if_neg h'] at this
      exact this

/-- After `replace('/', '_')` no slash remains. -/
theorem replaceSlash_no_slash (l : List Char) : '/' ∉ replaceSlash l := by
  unfold replaceSlash
  intro h
  obtain ⟨a, _, ha⟩ := List.mem_map.mp h
  by_cases h' : a = '/'
  · rw [if_pos h'] at ha
    exact absurd ha (by decide)
  · rw [if_neg h'] at ha
    exact h' ha

/-- The sanitized model id contains neither `::` nor `/`. -/
theorem sanitizeModelId_clean (s : String) :
    strHasSub (sanitizeModelId s) "::" = false ∧ strHasSub (sanitizeModelId s) "/" = false := by
  constructor
  · have : hasSubCL [':', ':'] (replaceSlash (replaceColons s.data)) = false :=
      (hasSub_colons_iff _).mpr (replaceSlash_chain (replaceColons_chain s.data))
    exact this
  · have : hasSubCL ['/'] (replaceSlash (replaceColons s.data)) = false :=
      (hasSub_slash_iff _).mpr (replaceSlash_no_slash (replaceColons s.data))
    exact this

/-- Colon-adjacency-freedom is preserved by an append whose right part does
not start with a colon. -/
theorem chain_append_right_head {l₁ l₂ : List Char}
    (h₁ : List.Chain' (fun a b => ¬(a = ':' ∧ b = ':')) l₁)
    (h₂ : List.Chain' (fun a b => ¬(a = ':' ∧ b = ':')) l₂)
    (h : ∀ y ∈ l₂.head?, y ≠ ':') :
    List.Chain' (fun a b => ¬(a = ':' ∧ b = ':')) (l₁ ++ l₂) := by
  rw [List.chain'_append]
  exact ⟨h₁, h₂, fun x _ y hy hxy => h y hy hxy.2⟩

/-- Colon-adjacency-freedom is preserved by an append whose left part does
not end with a colon. -/
theorem chain_append_left_last {l₁ l₂ : List Char}
    (h₁ : List.Chain' (fun a b => ¬(a = ':' ∧ b = ':')) l₁)
    (h₂ : List.Chain' (fun a b => ¬(a = ':' ∧ b = ':')) l₂)
    (h : ∀ x ∈ l₁.getLast?, x ≠ ':') :
    List.Chain' (fun a b => ¬(a = ':' ∧ b = ':')) (l₁ ++ l₂) := by
  rw [List.chain'_append]
  exact ⟨h₁, h₂, fun x hx y _ hxy => h x hx hxy.1⟩

/-- C8 (counterexample): the manual-context renderer embeds the metadata's
mode tag in the filename without sanitization, so for this session metadata —
whose model identifier contains both `::` and `/` — the generated filename
still contains `/`; the claim that the filename contains neither sequence is
false at this concrete input. -/
theorem c8_counterexample :
    strHasSub "anthropic::x/y" "::" = true
    ∧ strHasSub "anthropic::x/y" "/" = true
    ∧ strHasSub
        (manualFilename "20250101_120000" "manual-context-session"
          (ManualMeta.mk (some "anthropic::x/y") (some "a/b") none none none none none
            none none none none)) "/" = true := by
  refine ⟨?_, ?_, ?_⟩ <;> decide

/-- C8 (amended): the model identifier is sanitized by replacing each `::`
and `/` with `_`, so the chat-session filename contains neither sequence
(given the timestamp contains neither, as the `%Y%m%d_%H%M%S` format
guarantees); the manual-context filename additionally embeds the metadata's
mode tag unsanitized, so it contains neither sequence only when the mode tag
also contains neither. -/
theorem c8_amended (ts : String) (cm : ChatMeta) (mm : ManualMeta)
    (h0a : strHasSub (cm.model_id.getD "unknown") "::" = true)
    (h0b : strHasSub (cm.model_id.getD "unknown") "/" = true)
    (h0c : strHasSub (mm.model_id.getD "unknown") "::" = true)
    (h0d : strHasSub (mm.model_id.getD "unknown") "/" = true)
    (h1 : strHasSub ts "::" = false) (h2 : strHasSub ts "/" = false)
    (h3 : strHasSub (mm.mode.getD "unknown") "::" = false)
    (h4 : strHasSub (mm.mode.getD "unknown") "/" = false) :
    strHasSub (chatFilename ts "chat-session" cm) "::" = false
    ∧ strHasSub (chatFilename ts "chat-session" cm) "/" = false
    ∧ strHasSub (manualFilename ts "manual-context-session" mm) "::" = false
    ∧ strHasSub (manualFilename ts "manual-context-session" mm) "/" = false := by
  have hts : List.Chain' (fun a b => ¬(a = ':' ∧ b = ':')) ts.data :=
    (hasSub_colons_iff _).mp h1
  have hts2 : '/' ∉ ts.data := (hasSub_slash_iff _).mp h2
  have hmode : List.Chain' (fun a b => ¬(a = ':' ∧ b = ':')) (mm.mode.getD "unknown").data :=
    (hasSub_colons_iff _).mp h3
  have hmode2 : '/' ∉ (mm.mode.getD "unknown").data := (hasSub_slash_iff _).mp h4
  have hSc : List.Chain' (fun a b => ¬(a = ':' ∧ b = ':'))
      (sanitizeModelId (cm.model_id.getD "unknown")).data :=
    replaceSlash_chain (replaceColons_chain _)
  have hSm : List.Chain' (fun a b => ¬(a = ':' ∧ b = ':'))
      (sanitizeModelId (mm.model_id.getD "unknown")).data :=
    replaceSlash_chain (replaceColons_chain _)
  have hSc2 : '/' ∉ (sanitizeModelId (cm.model_id.getD "unknown")).data :=
    replaceSlash_no_slash _
  have hSm2 : '/' ∉ (sanitizeModelId (mm.model_id.getD "unknown")).data :=
    replaceSlash_no_slash _
  have hdataC : (chatFilename ts "chat-session" cm).data
      = ts.data ++ ['_'] ++ "chat-session".data ++ ['_']
        ++ (sanitizeModelId (cm.model_id.getD "unknown")).data ++ ['.', 'm', 'd'] := rfl
  have hdataM : (manualFilename ts "manual-context-session" mm).data
      = ts.data ++ ['_'] ++ "manual-context-session".data ++ ['_']
        ++ (mm.mode.getD "unknown").data ++ ['_']
        ++ (sanitizeModelId (mm.model_id.getD "unknown")).data ++ ['.', 'm', 'd'] := rfl
  have hlastU : ∀ (l : List Char) (x : Char), x ∈ (l ++ ['_']).getLast? → x ≠ ':' := by
    intro l x hx
    rw [List.getLast?_concat] at hx
    simp at hx
    subst hx
    decide
  have chainOf : ∀ l : List Char, hasSubCL [':', ':'] l = false →
      List.Chain' (fun a b => ¬(a = ':' ∧ b = ':')) l :=
    fun l h => (hasSub_colons_iff l).mp h
  have headU : ∀ y ∈ (['_'] : List Char).head?, y ≠ ':' := by
    intro y hy
    simp at hy
    subst hy
    decide
  have headDot : ∀ y ∈ (['.', 'm', 'd'] : List Char).head?, y ≠ ':' := by
    intro y hy
    simp at hy
    subst hy
    decide
  have headC : ∀ y ∈ "chat-session".data.head?, y ≠ ':' := by
    intro y hy
    simp at hy
    subst hy
    decide
  have headM : ∀ y ∈ "manual-context-session".data.head?, y ≠ ':' := by
    intro y hy
    simp at hy
    subst hy
    decide
  have chainC : List.Chain' (fun a b => ¬(a = ':' ∧ b = ':'))
      (ts.data ++ ['_'] ++ "chat-session".data ++ ['_']
        ++ (sanitizeModelId (cm.model_id.getD "unknown")).data ++ ['.', 'm', 'd']) := by
    refine chain_append_right_head ?_ (chainOf _ (by decide)) headDot
    refine chain_append_left_last ?_ hSc (hlastU _)
    refine chain_append_right_head ?_ (chainOf _ (by decide)) headU
    refine chain_append_right_head ?_ (chainOf _ (by decide)) headC
    exact chain_append_right_head hts (chainOf _ (by decide)) headU
  have chainM : List.Chain' (fun a b => ¬(a = ':' ∧ b = ':'))
      (ts.data ++ ['_'] ++ "manual-context-session".data ++ ['_']
        ++ (mm.mode.getD "unknown").data ++ ['_']
        ++ (sanitizeModelId (mm.model_id.getD "unknown")).data ++ ['.', 'm', 'd']) := by
    refine chain_append_right_head ?_ (chainOf _ (by decide)) headDot
    refine chain_append_left_last ?_ hSm (hlastU _)
    refine chain_append_right_head ?_ (chainOf _ (by decide)) headU
    refine chain_append_left_last ?_ hmode (hlastU _)
    refine chain_append_right_head ?_ (chainOf _ (by decide)) headU
    refine chain_append_right_head ?_ (chainOf _ (by decide)) headM
    exact chain_append_right_head hts (chainOf _ (by decide)) headU
  refine ⟨?_, ?_, ?_, ?_⟩
  · have : hasSubCL [':', ':'] (chatFilename ts "chat-session" cm).data = false := by
      rw [hdataC]
      exact (hasSub_colons_iff _).mpr chainC
    exact this
  · have : hasSubCL ['/'] (chatFilename ts "chat-session" cm).data = false := by
      rw [hdataC]
      refine (hasSub_slash_iff _).mpr ?_
      intro hmem
      simp only [List.mem_append] at hmem
      rcases hmem with ((((hm | hm) | hm) | hm) | hm) | hm
      · exact hts2 hm
      · simp at hm
      · revert hm; decide
      · simp at hm
      · exact hSc2 hm
      · revert hm; decide
    exact this
  · have : hasSubCL [':', ':'] (manualFilename ts "manual-context-session" mm).data = false := by
      rw [hdataM]
      exact (hasSub_colons_iff _).mpr chainM
    exact this
  · have : hasSubCL ['/'] (manualFilename ts "manual-context-session" mm).data = false := by
      rw [hdataM]
      refine (hasSub_slash_iff _).mpr ?_
      intro hmem
      simp only [List.mem_append] at hmem
      rcases hmem with ((((((hm | hm) | hm) | hm) | hm) | hm) | hm) | hm
      · exact hts2 hm
      · simp at hm
      · revert hm; decide
      · simp at hm
      · exact hmode2 hm
      · simp at hm
      · exact hSm2 hm
      · revert hm; decide
    exact this

/-- C8 (witness): the amended theorem evaluated at a hostile model id
`a::b/c`, a well-formed timestamp and a clean mode tag. -/
theorem c8_witness :
    strHasSub (chatFilename "20250101_120000" "chat-session"
        (ChatMeta.mk (some "a::b/c") none none none none)) "::" = false
    ∧ strHasSub (chatFilename "20250101_120000" "chat-session"
        (ChatMeta.mk (some "a::b/c") none none none none)) "/" = false
    ∧ strHasSub (manualFilename "20250101_120000" "manual-context-session"
        (ManualMeta.mk (some "a::b/c") (some "custom_context") none none none none none
          none none none none)) "::" = false
    ∧ strHasSub (manualFilename "20250101_120000" "manual-context-session"
        (ManualMeta.mk (some "a::b/c") (some "custom_context") none none none none none
          none none none none)) "/" = false :=
  c8_amended "20250101_120000" (ChatMeta.mk (some "a::b/c") none none none none)
    (ManualMeta.mk (some "a::b/c") (some "custom_context") none none none none none
      none none none none)
    (by decide) (by decide) (by decide) (by decide) (by decide) (by decide)
    (by decide) (by decide)
